import Mathlib

/-!
Verification development for the N.E.K.O web-scraper module
(`src/utils/web_scraper.py`).

Python strings are embedded as `List Char` (named `Str` below); Python's
absent-or-empty JSON fields are modelled as empty strings, so Python
truthiness (`if not x`) coincides with emptiness.  Regular-expression
substitutions are embedded as direct string transformations, one per
pattern, with Python's leftmost-match / replace-all semantics.  Titles and
scraped texts are modelled as single-line strings: the behaviour of the
dollar anchor immediately before a trailing newline is not modelled, and
the whitespace and word-character classes are modelled over ASCII.
Network calls are modelled by passing the (already structure-parsed)
response as an explicit argument; fetchers that must not issue a request
before their credential gate additionally return a Boolean recording
whether the request was issued.
-/

namespace WebScraper

/-- Python strings, embedded as lists of characters. -/
abbrev Str := List Char

/-- The ASCII part of Python's whitespace class (`\s`, `str.split()`). -/
def isSpace (c : Char) : Bool :=
  c = ' ' || c = '\t' || c = '\n' || c = '\r' || c = '\x0b' || c = '\x0c'

/-- Python's `\d` (ASCII digits). -/
def isDigit (c : Char) : Bool :=
  '0' ≤ c && c ≤ '9'

/-- ASCII lower-casing, as used by `str.lower()` and `re.IGNORECASE`. -/
def toLowerChar (c : Char) : Char :=
  if 'A' ≤ c && c ≤ 'Z' then Char.ofNat (c.toNat + 32) else c

/-- Case-insensitive "starts with" over `Str`. -/
def startsWithCI (pat l : Str) : Bool :=
  (pat.map toLowerChar).isPrefixOf (l.map toLowerChar)

/-- Python `str.strip()` (ASCII whitespace). -/
def pyStrip (l : Str) : Str :=
  ((l.dropWhile isSpace).reverse.dropWhile isSpace).reverse

/-- Substring containment, as Python's `in` operator on strings. -/
def containsSub (pat : Str) : Str → Bool
  | [] => pat.isEmpty
  | c :: cs => pat.isPrefixOf (c :: cs) || containsSub pat cs

/-- Renders a natural number in decimal, as Python's `str()`. -/
def natToStr (n : Nat) : Str := (toString n).data

/-- Renders an integer in decimal, as Python's `str()`. -/
def intToStr (n : Int) : Str := (toString n).data

/-- Splits on a separator character keeping empty fields,
as Python's `str.split(sep)`. -/
def splitOnChar (sep : Char) : Str → List Str
  | [] => [[]]
  | c :: cs =>
    if c = sep then [] :: splitOnChar sep cs
    else
      match splitOnChar sep cs with
      | t :: ts => (c :: t) :: ts
      | [] => [[c]]

/-- The whitespace-separated tokens of a string, as Python's `str.split()`. -/
def tokens (l : Str) : List Str :=
  (l.foldr
    (fun c acc =>
      if isSpace c then [] :: acc
      else
        match acc with
        | [] => [[c]]
        | t :: ts => (c :: t) :: ts)
    []).filter (fun t => !t.isEmpty)

/-- Joins tokens with single blanks, as Python's `' '.join(...)`. -/
def joinTokens : List Str → Str
  | [] => []
  | [t] => t
  | t :: ts => t ++ ' ' :: joinTokens ts

/-- Python's `' '.join(s.split())`: whitespace normalisation. -/
def wsNormalize (l : Str) : Str := joinTokens (tokens l)

theorem length_dropWhile_le {α : Type _} (p : α → Bool) (l : List α) :
    (l.dropWhile p).length ≤ l.length := by
  induction l with
  | nil => simp [List.dropWhile]
  | cons c cs ih =>
    by_cases h : p c = true
    · simpa [List.dropWhile, h] using Nat.le_succ_of_le ih
    · simp [List.dropWhile, h]

/-- Replaces each maximal whitespace run by one blank, as
`re.sub(r'\s+', ' ', s)`.  The fuel argument (initialised to the string's
length, which never increases along the recursion) keeps the recursion
structural; the fuel-exhausted arm is unreachable. -/
def collapseWsGo : Nat → Str → Str
  | _, [] => []
  | 0, l => l
  | fuel + 1, c :: cs =>
    if isSpace c then ' ' :: collapseWsGo fuel (cs.dropWhile isSpace)
    else c :: collapseWsGo fuel cs

def collapseWs (l : Str) : Str := collapseWsGo l.length l

/-- Generic scanner for a global `re.sub(pattern, '', s)`: `matcher`
returns the total length (at least 1) of a match starting at the current
position; scanning resumes after each removed match, as `re.sub` does.
The fuel argument keeps the recursion structural, as in `collapseWsGo`. -/
def removeScanGo (matcher : Str → Option Nat) : Nat → Str → Str
  | _, [] => []
  | 0, l => l
  | fuel + 1, c :: cs =>
    match matcher (c :: cs) with
    | some (n + 1) => removeScanGo matcher fuel ((c :: cs).drop (n + 1))
    | _ => c :: removeScanGo matcher fuel cs

def removeScan (matcher : Str → Option Nat) (l : Str) : Str :=
  removeScanGo matcher l.length l

/-- The value of the first digit run, as `re.search(r'(\d+)', s)`
followed by `int(...)`; `0` when there is no digit. -/
def digitsToNat (l : Str) : Nat :=
  l.foldl (fun n c => n * 10 + (c.toNat - 48)) 0

/-- First maximal digit run of a string, as a number (0 when none). -/
def firstDigitRun : Str → Nat
  | [] => 0
  | c :: cs => if isDigit c then digitsToNat ((c :: cs).takeWhile isDigit) else firstDigitRun cs

/-! ### `clean_window_title` (web_scraper.py lines 1239-1260)

Each entry of `patterns_to_remove` is embedded as one transformation,
applied in the source's order with `re.IGNORECASE`. -/

/-- The dash characters of the character class `[-–—]`. -/
def isDash (c : Char) : Bool :=
  c = '-' || c = '–' || c = '—'

/-- Whether `r'\s*[-–—]\s*(name1|name2|...)'` matches at the head of `l`
(the trailing `.*$` of those patterns always matches the single-line rest). -/
def dashNameMatchAt (names : List Str) (l : Str) : Bool :=
  match l.dropWhile isSpace with
  | d :: rest => isDash d && names.any (fun n => startsWithCI n (rest.dropWhile isSpace))
  | [] => false

/-- `re.sub(r'\s*[-–—]\s*(name1|...).*$', '', l)`: the leftmost match
extends to the end of the (single-line) string. -/
def removeDashNameSuffix (names : List Str) : Str → Str
  | [] => []
  | c :: cs =>
    if dashNameMatchAt names (c :: cs) then []
    else c :: removeDashNameSuffix names cs

def browserNames : List Str :=
  ["Google Chrome".data, "Mozilla Firefox".data, "Microsoft Edge".data,
   "Opera".data, "Safari".data, "Brave".data]

def editorNames : List Str :=
  ["Visual Studio Code".data, "VS Code".data, "VSCode".data]

/-- `Notepad\+*` matches whenever the literal `Notepad` does, since the
following `.*` absorbs any plus signs. -/
def notepadNames : List Str :=
  ["记事本".data, "Notepad".data, "Sublime Text".data, "Atom".data]

def officeNames : List Str :=
  ["Microsoft Word".data, "Excel".data, "PowerPoint".data]

def musicNames : List Str :=
  ["QQ音乐".data, "网易云音乐".data, "酷狗音乐".data, "Spotify".data]

def videoSiteNames : List Str :=
  ["哔哩哔哩".data, "bilibili".data, "YouTube".data, "优酷".data,
   "爱奇艺".data, "腾讯视频".data]

/-- `re.sub(r'\s*[-–—]\s*\d+\s*$', '', l)`: strips a trailing
dash-and-number (with surrounding whitespace) when present. -/
def removeDashNumberSuffix (l : Str) : Str :=
  let r1 := l.reverse.dropWhile isSpace
  let digits := r1.takeWhile isDigit
  if digits.isEmpty then l
  else
    match (r1.dropWhile isDigit).dropWhile isSpace with
    | d :: rest => if isDash d then (rest.dropWhile isSpace).reverse else l
    | [] => l

/-- `re.sub(r'^\*\s*', '', l)`: strips one leading asterisk and
following whitespace. -/
def removeLeadingStar : Str → Str
  | '*' :: rest => rest.dropWhile isSpace
  | l => l

/-- Whether `r'\s*OPEN.*?CLOSE\s*$'` matches at the head of `l`: after
optional whitespace an opening delimiter, and some closing delimiter later
that is followed only by whitespace. -/
def bracketMatchAt (openC closeC : Char) (l : Str) : Bool :=
  match l.dropWhile isSpace with
  | c :: rest =>
    c = openC &&
      (match rest.reverse.dropWhile isSpace with
       | c2 :: _ => c2 = closeC
       | [] => false)
  | [] => false

/-- `re.sub(r'\s*\[.*?\]\s*$', '', l)` (and the parenthesis twin): the
leftmost match extends to the end of the string. -/
def removeTrailingBracketed (openC closeC : Char) : Str → Str
  | [] => []
  | c :: cs =>
    if bracketMatchAt openC closeC (c :: cs) then []
    else c :: removeTrailingBracketed openC closeC cs

/-- Match length of `r'https?://\S+'` (IGNORECASE) at the head of `l`. -/
def urlMatcher (l : Str) : Option Nat :=
  if startsWithCI "https://".data l then
    let run := ((l.drop 8).takeWhile (fun c => !isSpace c)).length
    if run = 0 then none else some (8 + run)
  else if startsWithCI "http://".data l then
    let run := ((l.drop 7).takeWhile (fun c => !isSpace c)).length
    if run = 0 then none else some (7 + run)
  else none

/-- Match length of `r'www\.\S+'` (IGNORECASE) at the head of `l`. -/
def wwwMatcher (l : Str) : Option Nat :=
  if startsWithCI "www.".data l then
    let run := ((l.drop 4).takeWhile (fun c => !isSpace c)).length
    if run = 0 then none else some (4 + run)
  else none

/-- `re.sub(r'\.EXT\s*$', '', l)` (IGNORECASE): strips the literal
extension and trailing whitespace when the string ends with them. -/
def removeExtSuffix (ext : Str) (l : Str) : Str :=
  let r := l.reverse.dropWhile isSpace
  if startsWithCI ext.reverse r then (r.drop ext.length).reverse else l

/-- `re.sub(r'\.html?\s*$', '', l)` (IGNORECASE): the greedy `l?` tries
`.html` before `.htm`. -/
def removeHtmlSuffix (l : Str) : Str :=
  let r := l.reverse.dropWhile isSpace
  if startsWithCI ".html".data.reverse r then (r.drop 5).reverse
  else if startsWithCI ".htm".data.reverse r then (r.drop 4).reverse
  else l

/-- The `patterns_to_remove` list of `clean_window_title`, applied in
source order. -/
def applyCleanPatterns (l : Str) : Str :=
  let l := removeDashNameSuffix browserNames l
  let l := removeDashNameSuffix editorNames l
  let l := removeDashNameSuffix notepadNames l
  let l := removeDashNameSuffix officeNames l
  let l := removeDashNameSuffix musicNames l
  let l := removeDashNameSuffix videoSiteNames l
  let l := removeDashNumberSuffix l
  let l := removeLeadingStar l
  let l := removeTrailingBracketed '[' ']' l
  let l := removeTrailingBracketed '(' ')' l
  let l := removeScan urlMatcher l
  let l := removeScan wwwMatcher l
  let l := removeExtSuffix ".py".data l
  let l := removeExtSuffix ".js".data l
  let l := removeHtmlSuffix l
  let l := removeExtSuffix ".css".data l
  let l := removeExtSuffix ".md".data l
  let l := removeExtSuffix ".txt".data l
  let l := removeExtSuffix ".json".data l
  l

/-- The pattern pass of `clean_window_title` followed by
`' '.join(cleaned.split())`. -/
def cleanPhase (l : Str) : Str := wsNormalize (applyCleanPatterns l)

/-- The separators of `re.split(r'\s*[-–—|]\s*', title)`. -/
def isSepChar (c : Char) : Bool := isDash c || c = '|'

/-- `re.split(r'\s*[-–—|]\s*', title)[0]`: the text before the first
dash/pipe, without the whitespace absorbed into the separator match;
the whole string when no separator occurs. -/
def firstSplitPart (l : Str) : Str :=
  if l.any isSepChar then
    ((l.takeWhile (fun c => !isSepChar c)).reverse.dropWhile isSpace).reverse
  else l

/-- `clean_window_title` (web_scraper.py lines 1239-1260). -/
def clean_window_title (title : Str) : Str :=
  if title.isEmpty then []
  else
    let cleaned := cleanPhase title
    let cleaned :=
      if cleaned.length < 3 then
        let p0 := firstSplitPart title
        if 3 ≤ p0.length then pyStrip p0 else cleaned
      else cleaned
    cleaned.take 100

/-! ### FetchResult and the orchestrators (web_scraper.py lines 825-880, 1972-2004)

A fetcher's returned dict `{'success': True, <key>: [...]}` or
`{'success': False, 'error': msg}` is the tagged union `PyResult`. -/

/-- The result dict every fetcher returns. -/
inductive PyResult (α : Type) where
  | ok (payload : List α)
  | fail (error : Str)
deriving DecidableEq

/-- The `success` flag of a fetcher result. -/
def PyResult.success {α : Type} : PyResult α → Bool
  | .ok _ => true
  | .fail _ => false

/-- The `error` field of a fetcher result (empty for a success). -/
def PyResult.errorMsg {α : Type} : PyResult α → Str
  | .ok _ => []
  | .fail e => e

/-- The item list of a fetcher result (empty for a failure). -/
def PyResult.payload {α : Type} : PyResult α → List α
  | .ok l => l
  | .fail _ => []

/-- One branch of `asyncio.gather(..., return_exceptions=True)`: either the
branch's returned dict or the exception object it raised (whose `str()` is
`msg`). -/
inductive GatherOutcome (α : Type) where
  | result (r : PyResult α)
  | exn (msg : Str)
deriving DecidableEq

/-- `{'success': False, 'error': str(x)} if isinstance(x, Exception) else x`:
the per-branch exception-to-result conversion both orchestrators perform. -/
def settle {α : Type} : GatherOutcome α → PyResult α
  | .result r => r
  | .exn m => .fail m

/-- The aggregation envelope: overall flag, region tag, the two
per-platform results, and the optional top-level error message. -/
structure Envelope (α β : Type) where
  success : Bool
  region : Str
  first : PyResult α
  second : PyResult β
  error : Option Str
deriving DecidableEq

/-- The branch-combining core of `fetch_public_content` (lines 836-874):
both regional arms run this identical logic on their two gathered branch
outcomes (bilibili/weibo for `region = 'china'`, reddit/twitter
otherwise).  The limit arguments only parameterise the two fetch calls
whose outcomes are the inputs here. -/
def fetch_public_content {α β : Type} (region : Str)
    (o1 : GatherOutcome α) (o2 : GatherOutcome β) : Envelope α β :=
  let r1 := settle o1
  let r2 := settle o2
  if !r1.success && !r2.success then
    { success := false, region := region, first := r1, second := r2,
      error := some "无法获取任何热门内容".data }
  else
    { success := true, region := region, first := r1, second := r2, error := none }

/-- The branch-combining core of `fetch_personal_dynamics`
(lines 1980-2001): after the same per-branch exception conversion, the
envelope is returned with `success := true` unconditionally, in both
regional arms. -/
def fetch_personal_dynamics {α β : Type} (region : Str)
    (o1 : GatherOutcome α) (o2 : GatherOutcome β) : Envelope α β :=
  let r1 := settle o1
  let r2 := settle o2
  { success := true, region := region, first := r1, second := r2, error := none }

/-! ### Region selection: `is_china_region` (web_scraper.py lines 42-97)

The two locale lookups may return a string, `None`, or raise; both
try/except blocks swallow `ValueError` (`pass`) and any other `Exception`
(logged to debug).  The environment supplies the two lookup outcomes. -/

/-- A raised Python exception, split by the two except clauses. -/
inductive PyExn where
  | valueError (msg : Str)
  | otherError (msg : Str)
deriving DecidableEq

/-- The ambient locale environment: the outcomes of
`locale.getlocale()[0]` and of the `getattr(locale, 'getdefaultlocale',
lambda: (None,))()[0]` call (a missing attribute is `.ok none`). -/
structure LocaleEnv where
  getlocale : Except PyExn (Option Str)
  getdefaultlocale : Except PyExn (Option Str)

/-- `normalize_locale` (lines 52-60): lower-case, hyphens to underscores,
encoding suffix after the first dot stripped. -/
def normalize_locale (loc : Str) : Str :=
  if loc.isEmpty then []
  else
    let l := (loc.map toLowerChar).map (fun c => if c = '-' then '_' else c)
    l.takeWhile (fun c => c ≠ '.')

def mainland_china_locales : List Str :=
  ["zh_cn".data, "chinese_china".data, "chinese_simplified_china".data]

/-- `check_locale` (lines 62-73). -/
def check_locale (loc : Str) : Bool :=
  let n := normalize_locale loc
  if n.isEmpty then false
  else if n ∈ mainland_china_locales then true
  else if "zh_cn".data.isPrefixOf n then true
  else if containsSub "chinese".data n && containsSub "china".data n then true
  else false

/-- One try block of `is_china_region`: `if <locale> and
check_locale(<locale>): return True`, with `ValueError` passed over and
any other `Exception` logged and passed over. -/
def tryLocaleCheck (fetch : Except PyExn (Option Str)) : Except PyExn Bool :=
  match fetch with
  | .ok (some l) => .ok (!l.isEmpty && check_locale l)
  | .ok none => .ok false
  | .error (.valueError _) => .ok false
  | .error (.otherError _) => .ok false

/-- `is_china_region` (lines 42-97): the fallback region detector.  The
`Except` codomain records whether an exception escapes the function. -/
def is_china_region (env : LocaleEnv) : Except PyExn Bool :=
  match tryLocaleCheck env.getlocale with
  | .ok true => .ok true
  | .ok false =>
    (match tryLocaleCheck env.getdefaultlocale with
     | .ok true => .ok true
     | .ok false => .ok false
     | .error e => .error e)
  | .error e => .error e

/-! ### Credentials

`_get_platform_cookies` resolves a platform name to a cookie mapping via
the external store and plaintext fallback files; the fetchers only observe
the resulting mapping, which is passed in as an argument here. -/

/-- A cookie mapping (Python dict), as an association list. -/
abbrev Cookies := List (Str × Str)

/-- `cookies.get(k)`. -/
def cookieGet (cs : Cookies) (k : Str) : Option Str :=
  (cs.find? (fun p => p.1 = k)).map (fun p => p.2)

/-- `cookies.get(k)` under Python truthiness: an absent key and an empty
value are both falsy. -/
def getTruthy (cs : Cookies) (k : Str) : Option Str :=
  match cookieGet cs k with
  | some v => if v.isEmpty then none else some v
  | none => none

/-- `weibo_cookies.get('SUB') or weibo_cookies.get('sub')`
(web_scraper.py line 1720). -/
def weiboSubToken (cs : Cookies) : Option Str :=
  (getTruthy cs "SUB".data).orElse (fun _ => getTruthy cs "sub".data)

/-! ### Collection loops

Several fetchers collect items with `list.append(...)` followed by
`if len(list) >= limit: break` — the bound is checked only after an
append.  Others check the bound at the top of the loop, or slice the
source with `[:limit]`. -/

/-- Append-then-check collection: `mk` builds an output item or skips the
input item; after each append the loop breaks once `limit` is reached.
`n` is the number of items already collected. -/
def collectLoop {α β : Type} (mk : α → Option β) (limit : Nat) :
    List α → Nat → List β
  | [], _ => []
  | a :: as_, n =>
    match mk a with
    | none => collectLoop mk limit as_ n
    | some b => if limit ≤ n + 1 then [b] else b :: collectLoop mk limit as_ (n + 1)

/-! ### Reddit fetchers (web_scraper.py lines 345-374 and 1819-1850) -/

/-- `_format_score` (lines 345-352).  Python renders `count/1e6` and
`count/1e3` with `:.1f`; the one-decimal value is computed here with
integer arithmetic (the binary floating-point rounding of `:.1f` at
half-way points is not modelled; no claim depends on the rendered text). -/
def format_score (count : Int) : Str :=
  if 1000000 ≤ count then
    intToStr (count / 1000000) ++ '.' :: intToStr (count % 1000000 / 100000) ++ "M".data
  else if 1000 ≤ count then
    intToStr (count / 1000) ++ '.' :: intToStr (count % 1000 / 100) ++ "K".data
  else if 0 < count then intToStr count
  else "0".data

/-- One entry of the Reddit listing's `children`, restricted to the
fields the fetchers read; a child whose `data` mapping is absent behaves
as the record with empty/false/zero fields. -/
structure RedditPostData where
  over_18 : Bool
  title : Str
  subreddit : Str
  score : Int
  permalink : Str
deriving DecidableEq

/-- A formatted Reddit post as both Reddit fetchers build it. -/
structure RedditPost where
  title : Str
  subreddit : Str
  score : Str
  url : Str
deriving DecidableEq

/-- The per-item formatting shared by both Reddit fetchers. -/
def redditPostOf (pd : RedditPostData) : RedditPost :=
  { title := pd.title,
    subreddit := "r/".data ++ pd.subreddit,
    score := format_score pd.score,
    url := "https://www.reddit.com".data ++ pd.permalink }

/-- The outcome of a Reddit HTTP call: the parsed `children` list of the
JSON body, or a raised exception (connection failure, JSON decode error). -/
inductive RedditNet where
  | raised (msg : Str)
  | json (children : List RedditPostData)

/-- `fetch_reddit_popular` (lines 354-374): iterates `children[:limit]`,
skips `over_18` items, and fails when nothing was collected. -/
def fetch_reddit_popular (limit : Nat) (net : RedditNet) : PyResult RedditPost :=
  match net with
  | .raised m => .fail m
  | .json children =>
    let posts := ((children.take limit).filter (fun pd => !pd.over_18)).map redditPostOf
    if posts.isEmpty then .fail "Reddit返回空数据".data else .ok posts

/-- `fetch_reddit_personal_dynamic` (lines 1819-1850): fails fast when
the cookie mapping is empty; otherwise the same `children[:limit]`
iteration with the `over_18` filter, returning success even when the
collected list is empty.  The Boolean records whether the HTTP request
was issued. -/
def fetch_reddit_personal_dynamic (limit : Nat) (cookies : Cookies)
    (net : RedditNet) : Bool × PyResult RedditPost :=
  if cookies.isEmpty then (false, .fail "未配置 config/reddit_cookies.json".data)
  else
    match net with
    | .raised m => (true, .fail m)
    | .json children =>
      (true, .ok (((children.take limit).filter (fun pd => !pd.over_18)).map redditPostOf))

/-! ### Weibo trending (web_scraper.py lines 245-343) -/

/-- One `td.td-02` row of the desktop hot-search page: the optional
anchor (its stripped text and `href`) and the optional stripped text of
the `span`. -/
structure TdA where
  word : Str
  href : Str
deriving DecidableEq

structure TdItem where
  a : Option TdA
  span : Option Str
deriving DecidableEq

/-- One parsed hot-search entry (shared by the primary and fallback
paths). -/
structure WeiboTrendItem where
  word : Str
  raw_hot : Nat
  note : Str
  rank : Nat
  url : Str
deriving DecidableEq

/-- The fallback URL `f"https://s.weibo.com/weibo?q={quote(word)}"`; the
percent-encoding of `quote` is not modelled (no claim inspects it). -/
def weiboSearchUrl (w : Str) : Str :=
  "https://s.weibo.com/weibo?q=".data ++ w

/-- The per-row parse of the primary path (lines 277-294): requires an
anchor with non-empty text; absolute-ifies the href; reads the first
digit run of the span text as `raw_hot`; the digit-free remainder,
stripped, as `note`; `i` is the row's enumerate index. -/
def mkWeiboTrend (td : TdItem) (i : Nat) : Option WeiboTrendItem :=
  match td.a with
  | none => none
  | some a =>
    if a.word.isEmpty then none
    else
      let href :=
        if !a.href.isEmpty && !("http".data.isPrefixOf a.href) then
          "https://s.weibo.com".data ++ a.href
        else a.href
      let hot_text := match td.span with | some s => s | none => []
      let raw_hot := firstDigitRun hot_text
      let note := if hot_text.isEmpty then [] else pyStrip (hot_text.filter (fun c => !isDigit c))
      some { word := a.word, raw_hot := raw_hot, note := note, rank := i + 1, url := href }

/-- The primary parsing loop (lines 275-294): the bound is checked at the
top of each iteration, and the enumerate index advances on skipped rows
too. -/
def weiboTrendLoop (limit : Nat) : List TdItem → Nat → Nat → List WeiboTrendItem
  | [], _, _ => []
  | td :: tds, i, cnt =>
    if limit ≤ cnt then []
    else
      match mkWeiboTrend td i with
      | some tr => tr :: weiboTrendLoop limit tds (i + 1) (cnt + 1)
      | none => weiboTrendLoop limit tds (i + 1) cnt

/-- One entry of the fallback AJAX endpoint's `realtime` list. -/
structure RealtimeItem where
  word : Str
  raw_hot : Nat
  note : Str
  rank : Nat
  is_ad : Bool
deriving DecidableEq

/-- The outcome of the fallback AJAX call: a raised exception (includes
`raise_for_status` on a non-2xx response and JSON decode errors), a
non-dict body, or the parsed `ok` flag and `realtime` list. -/
inductive WeiboFallbackNet where
  | raised (msg : Str)
  | notDict
  | json (okFlag : Option Int) (realtime : List RealtimeItem)

/-- `_fetch_weibo_trending_fallback` (lines 307-343; the source name
carries a leading underscore).  Non-ad entries of `realtime[:limit]` are
formatted; `data.get('ok') == 1` gates success. -/
def fetch_weibo_trending_fallback (limit : Nat) (net : WeiboFallbackNet) :
    PyResult WeiboTrendItem :=
  match net with
  | .raised m => .fail m
  | .notDict => .fail "API返回格式异常".data
  | .json okFlag realtime =>
    if okFlag = some 1 then
      .ok (((realtime.take limit).filter (fun it => !it.is_ad)).map (fun it =>
        { word := it.word, raw_hot := it.raw_hot, note := it.note, rank := it.rank,
          url := if it.word.isEmpty then [] else weiboSearchUrl it.word }))
    else .fail "微博API返回错误".data

/-- The outcome of the primary desktop request: a raised exception, or the
response's final URL (after redirects) together with the parsed
`td.td-02` rows.  The cookie-header construction (lines 254-259) only
shapes the outgoing request and is not observable in the result. -/
inductive WeiboPrimaryNet where
  | raised (msg : Str)
  | response (finalUrl : Str) (tds : List TdItem)

/-- `fetch_weibo_trending` (lines 245-304): the fallback is invoked when
the final URL contains `passport`, when no rows parse out of the page,
when the parsed list is empty, or when the primary path raises. -/
def fetch_weibo_trending (limit : Nat) (primary : WeiboPrimaryNet)
    (fallback : WeiboFallbackNet) : PyResult WeiboTrendItem :=
  match primary with
  | .raised _ => fetch_weibo_trending_fallback limit fallback
  | .response finalUrl tds =>
    if containsSub "passport".data finalUrl then
      fetch_weibo_trending_fallback limit fallback
    else if tds.isEmpty then
      fetch_weibo_trending_fallback limit fallback
    else
      let trending := weiboTrendLoop limit tds 0 0
      if trending.isEmpty then fetch_weibo_trending_fallback limit fallback
      else .ok trending

/-! ### Bilibili trending (web_scraper.py lines 190-233) -/

/-- The `rcmd_reason` field: a dict (its `content` read) or any other
value (its `str()` used). -/
inductive RcmdReason where
  | dict (content : Str)
  | other (s : Str)
deriving DecidableEq

/-- One entry of the homepage recommendation payload, restricted to the
fields read; absent fields are empty/zero. -/
structure BiliVideoItem where
  bvid : Str
  title : Str
  desc : Str
  owner_name : Str
  view : Int
  like : Int
  id : Int
  goto : Str
  rcmd_reason : RcmdReason
deriving DecidableEq

/-- A formatted Bilibili video entry. -/
structure BiliVideo where
  title : Str
  desc : Str
  author : Str
  view : Int
  like : Int
  bvid : Str
  url : Str
  id : Int
  goto : Str
  rcmd_reason : Str
deriving DecidableEq

def rcmdText : RcmdReason → Str
  | .dict content => content
  | .other s => s

/-- The per-item build of `fetch_bilibili_trending` (lines 202-221): an
item without a `bvid` is skipped. -/
def mkBiliVideo (item : BiliVideoItem) : Option BiliVideo :=
  if item.bvid.isEmpty then none
  else
    some { title := item.title, desc := item.desc, author := item.owner_name,
           view := item.view, like := item.like, bvid := item.bvid,
           url := "https://www.bilibili.com/video/".data ++ item.bvid,
           id := item.id, goto := item.goto, rcmd_reason := rcmdText item.rcmd_reason }

/-- The outcome of `homepage.get_videos`: the item list of the payload
(a falsy or itemless payload is the empty list), or a raised exception
(which also covers the `ImportError` arm, with its distinct message). -/
inductive BiliTrendNet where
  | raised (msg : Str)
  | items (l : List BiliVideoItem)

/-- `fetch_bilibili_trending` (lines 190-233): append-then-check
collection bounded by `limit`; returns success even when the collected
list is empty. -/
def fetch_bilibili_trending (limit : Nat) (net : BiliTrendNet) : PyResult BiliVideo :=
  match net with
  | .raised m => .fail m
  | .items l => .ok (collectLoop mkBiliVideo limit l 0)

/-! ### Twitter trending (web_scraper.py lines 376-391) -/

/-- A trending word entry. -/
structure TrendWord where
  word : Str
  url : Str
deriving DecidableEq

/-- The outcome of the trends24 page fetch: the stripped texts of the
selected anchors, or a raised exception. -/
inductive TwitterTrendNet where
  | raised (msg : Str)
  | page (texts : List Str)

/-- `fetch_twitter_trending` (lines 376-391): non-empty texts of the
first `limit` anchors; any failure (exception or empty list) yields the
single fixed error message.  The `quote` percent-encoding of the search
URL is not modelled. -/
def fetch_twitter_trending (limit : Nat) (net : TwitterTrendNet) : PyResult TrendWord :=
  match net with
  | .raised _ => .fail "无法获取Twitter热门".data
  | .page texts =>
    let l := (texts.take limit).filterMap (fun t =>
      if t.isEmpty then none
      else some { word := t, url := "https://twitter.com/search?q=".data ++ t })
    if l.isEmpty then .fail "无法获取Twitter热门".data else .ok l

/-! ### Text cleaning shared by the personal fetchers -/

/-- Match length of `r'<[^>]+>'` at the head of `l` (a non-empty tag body
up to the next closing angle bracket). -/
def htmlTagMatcher (l : Str) : Option Nat :=
  match l with
  | '<' :: rest =>
    let body := rest.takeWhile (fun c => c ≠ '>')
    if body.length = 0 then none
    else if (rest.drop body.length).isEmpty then none
    else some (body.length + 2)
  | _ => none

/-- `re.sub(r'\s+', ' ', re.sub(r'<[^>]+>', '', text)).strip()`
(web_scraper.py lines 1775-1776). -/
def cleanWeiboMarkup (t : Str) : Str :=
  pyStrip (collapseWs (removeScan htmlTagMatcher t))

/-- The ASCII part of `\w` (the `\w+` of the t.co pattern). -/
def isWordChar (c : Char) : Bool :=
  isDigit c || ('a' ≤ c && c ≤ 'z') || ('A' ≤ c && c ≤ 'Z') || c = '_'

/-- Match length of `r'https://t\.co/\w+'` (case-sensitive) at the head
of `l`. -/
def tcoMatcher (l : Str) : Option Nat :=
  if "https://t.co/".data.isPrefixOf l then
    let run := ((l.drop 13).takeWhile isWordChar).length
    if run = 0 then none else some (13 + run)
  else none

/-- `re.sub(r'https://t\.co/\w+', '', text).strip()` (lines 1947, 1953,
1876). -/
def cleanTweetText (t : Str) : Str :=
  pyStrip (removeScan tcoMatcher t)

/-! ### Weibo personal dynamics (web_scraper.py lines 1700-1817) -/

/-- A retweeted status, restricted to the fields read. -/
structure WeiboRetweet where
  screen_name : Str
  text : Str
deriving DecidableEq

/-- One `mblog`, restricted to the fields read; absent string fields are
empty. -/
structure WeiboMblog where
  screen_name : Str
  text : Str
  retweeted : Option WeiboRetweet
  created_at : Str
  mid : Str
  id : Str
deriving DecidableEq

/-- One card of the mobile feed: its `card_type` and (possibly falsy)
`mblog`. -/
structure WeiboCard where
  card_type : Int
  mblog : Option WeiboMblog
deriving DecidableEq

/-- A formatted personal Weibo status. -/
structure WeiboStatus where
  author : Str
  content : Str
  timestamp : Str
  url : Str
deriving DecidableEq

/-- The per-card build of `fetch_weibo_personal_dynamic`
(lines 1762-1795): only `card_type == 9` cards with a truthy `mblog`
yield a status. -/
def mkWeiboStatus (card : WeiboCard) : Option WeiboStatus :=
  if card.card_type ≠ 9 then none
  else
    match card.mblog with
    | none => none
    | some m =>
      let author := if m.screen_name.isEmpty then "未知博主".data else m.screen_name
      let clean_text := cleanWeiboMarkup m.text
      let clean_text :=
        match m.retweeted with
        | some rt =>
          let rt_author := if rt.screen_name.isEmpty then "原博主".data else rt.screen_name
          clean_text ++ " // [转发动态] @".data ++ rt_author ++ ": ".data ++
            cleanWeiboMarkup rt.text
        | none => clean_text
      let display := if clean_text.isEmpty then "[分享了图片/动态]".data else clean_text
      let mid := if m.mid.isEmpty then m.id else m.mid
      some { author := author,
             content := "博主【".data ++ author ++ "】: ".data ++ display,
             timestamp := m.created_at,
             url := "https://m.weibo.cn/detail/".data ++ mid }

/-- The outcome of the mobile-API call: a raised exception (connection or
JSON decode), or the status code together with the parsed `ok` flag and
`cards`. -/
inductive WeiboPersonalNet where
  | raised (msg : Str)
  | response (status : Nat) (okFlag : Option Int) (cards : List WeiboCard)

/-- `fetch_weibo_personal_dynamic` (lines 1700-1817): fails fast without
a request when the cookie mapping is empty or lacks the `SUB` token;
then gates on status 200 and `ok == 1`; append-then-check collection;
an empty collection is a failure.  The Boolean records whether the HTTP
request was issued. -/
def fetch_weibo_personal_dynamic (limit : Nat) (cookies : Cookies)
    (net : WeiboPersonalNet) : Bool × PyResult WeiboStatus :=
  if cookies.isEmpty then (false, .fail "未找到 config/weibo_cookies.json".data)
  else
    match weiboSubToken cookies with
    | none => (false, .fail "缺少核心登录凭证 SUB".data)
    | some _ =>
      match net with
      | .raised m => (true, .fail m)
      | .response status okFlag cards =>
        if status ≠ 200 then
          (true, .fail ("API请求失败，状态码: ".data ++ natToStr status))
        else if okFlag ≠ some 1 then
          (true, .fail "微博凭证已过期，请去浏览器重新获取".data)
        else
          let weibo_list := collectLoop mkWeiboStatus limit cards 0
          if weibo_list.isEmpty then (true, .fail "未解析到微博内容".data)
          else (true, .ok weibo_list)

/-! ### Bilibili personal dynamics (web_scraper.py lines 1549-1691)

The polymer-feed JSON is embedded as typed-but-optional records covering
exactly the fields the parser reads; an absent or non-dict intermediate
(`safe_dict`) is the record with empty/default fields, and a list entry
that is not a dict is not modelled (such entries are skipped).  The
per-item `try` body contains no raising operation in this pure model, so
the per-item `except` arm is unreachable here. -/

structure BiliArchive where
  bvid : Str
  title : Str
deriving DecidableEq

structure BiliArticle where
  id : Str
  title : Str
deriving DecidableEq

/-- A parsed `live_play_info` dict: `get("title", default)` keeps the
running title when the key is absent; `if room_id:` treats `0` as
falsy. -/
structure BiliPlayInfo where
  title : Option Str
  room_id : Nat
deriving DecidableEq

/-- The `content` field of a live dict: a JSON-object string whose parse
yields an optional `live_play_info` dict, a `{`-prefixed string whose
parse raises (caught by the inner `except`), or a value that is not a
`{`-prefixed string. -/
inductive BiliLiveContentField where
  | parsed (play_info : Option BiliPlayInfo)
  | malformed
  | notJsonObject
deriving DecidableEq

/-- The dict resolved by `major.get("live_rcmd") or major.get("live")`. -/
structure BiliLiveRcmd where
  content : Option BiliLiveContentField
  live_play_info : Option BiliPlayInfo
deriving DecidableEq

/-- The `major` of `module_dynamic`, keyed by its `type` string; `other`
covers an absent major and unknown type strings (the `case _` arm). -/
inductive BiliMajor where
  | archive (a : BiliArchive)
  | draw
  | article (a : BiliArticle)
  | liveRcmd (lr : Option BiliLiveRcmd)
  | other
deriving DecidableEq

/-- One feed item, restricted to the fields read. -/
structure BiliDynItem where
  id_str : Str
  type : Str
  author_name : Str
  pub_time : Str
  major : BiliMajor
  desc_text : Str
deriving DecidableEq

/-- A formatted dynamic entry. -/
structure BiliDynamic where
  dynamic_id : Str
  type : Str
  timestamp : Str
  author : Str
  content : Str
  url : Str
  base_url : Str
deriving DecidableEq

/-- `re.search(r'直播间：(\d+)', raw_text)`: the digits after the first
occurrence of the marker (`none` when the marker never precedes a
digit). -/
def findRoomId : Str → Option Str
  | [] => none
  | c :: cs =>
    if "直播间：".data.isPrefixOf (c :: cs) then
      let digits := ((c :: cs).drop 4).takeWhile isDigit
      if digits.isEmpty then findRoomId cs else some digits
    else findRoomId cs

/-- The `MAJOR_TYPE_LIVE_RCMD` arm (lines 1633-1653): resolves the live
title and room link from the nested content JSON, falling back to the
outer description on any shape mismatch or parse error. -/
def biliLiveParts (raw_text : Str) (lr : Option BiliLiveRcmd) (baseUrl : Str) :
    Str × Str :=
  let tu : Str × Str :=
    match lr with
    | none => (raw_text, baseUrl)
    | some r =>
      match r.content with
      | some (.parsed (some pi)) =>
        (pi.title.getD raw_text,
         if pi.room_id ≠ 0 then "https://live.bilibili.com/".data ++ natToStr pi.room_id
         else baseUrl)
      | some (.parsed none) => (raw_text, baseUrl)
      | some .malformed => (raw_text, baseUrl)
      | some .notJsonObject | none =>
        match r.live_play_info with
        | some pi =>
          (pi.title.getD raw_text,
           if pi.room_id ≠ 0 then "https://live.bilibili.com/".data ++ natToStr pi.room_id
           else baseUrl)
        | none => (raw_text, baseUrl)
  let live_title := tu.1
  ("[正在直播] ".data ++
     (if live_title.isEmpty then "快来我的直播间看看吧！".data else live_title),
   tu.2)

/-- The per-item build of `fetch_bilibili_personal_dynamic`
(lines 1586-1681): ad/applet/none types are skipped; the `major` type
selects the canonical link and the category-tagged synopsis. -/
def mkBiliDynamic (item : BiliDynItem) : Option BiliDynamic :=
  if item.type = "DYNAMIC_TYPE_AD".data ∨ item.type = "DYNAMIC_TYPE_APPLET".data ∨
      item.type = "DYNAMIC_TYPE_NONE".data then none
  else
    let author := if item.author_name.isEmpty then "未知UP主".data else item.author_name
    let pub_time := if item.pub_time.isEmpty then "刚刚".data else item.pub_time
    let raw_text := item.desc_text
    let baseUrl := "https://t.bilibili.com/".data ++ item.id_str
    let cu : Str × Str :=
      match item.major with
      | .archive a =>
        ("[发布了新视频] ".data ++ a.title,
         if a.bvid.isEmpty then baseUrl
         else "https://www.bilibili.com/video/".data ++ a.bvid)
      | .draw =>
        (if raw_text.isEmpty then "[分享了图片]".data
         else "[图文动态] ".data ++ raw_text, baseUrl)
      | .article a =>
        ("[发布了专栏文章] ".data ++ a.title,
         if a.id.isEmpty then baseUrl
         else "https://www.bilibili.com/read/cv".data ++ a.id)
      | .liveRcmd lr => biliLiveParts raw_text lr baseUrl
      | .other =>
        if item.type = "DYNAMIC_TYPE_LIVE_RCMD".data then
          ("[正在直播] ".data ++
             (if raw_text.isEmpty then "快来我的直播间看看吧！".data else raw_text),
           match findRoomId raw_text with
           | some digits => "https://live.bilibili.com/".data ++ digits
           | none => baseUrl)
        else if item.type = "DYNAMIC_TYPE_FORWARD".data then
          (if raw_text.isEmpty then "[转发了动态]".data
           else "[转发动态] ".data ++ raw_text, baseUrl)
        else
          (if raw_text.isEmpty then "发布了新动态".data else raw_text, baseUrl)
    let content := pyStrip (collapseWs cu.1)
    let content := if content.isEmpty then "分享了新动态".data else content
    some { dynamic_id := item.id_str, type := item.type, timestamp := pub_time,
           author := author,
           content := "UP主【".data ++ author ++ "】: ".data ++ content,
           url := cu.2, base_url := baseUrl }

/-- The outcome of the polymer-feed call: a raised exception (request,
`raise_for_status`, or JSON decode), or whether the body is a dict, its
`code`, and its item list (an absent/non-dict `data` is the empty
list). -/
inductive BiliDynNet where
  | raised (msg : Str)
  | json (isDict : Bool) (code : Option Int) (items : List BiliDynItem)

/-- `fetch_bilibili_personal_dynamic` (lines 1549-1691): fails fast
without a request when the cookie mapping is empty (the credential
builder returns `None` exactly then); gates on a dict body with
`code == 0`; append-then-check collection; returns success even when the
collection is empty.  The Boolean records whether the HTTP request was
issued. -/
def fetch_bilibili_personal_dynamic (limit : Nat) (cookies : Cookies)
    (net : BiliDynNet) : Bool × PyResult BiliDynamic :=
  if cookies.isEmpty then (false, .fail "未提供Bilibili认证信息".data)
  else
    match net with
    | .raised m => (true, .fail m)
    | .json isDict code items =>
      if !isDict || code ≠ some 0 then (true, .fail "API请求失败".data)
      else (true, .ok (collectLoop mkBiliDynamic limit items 0))

/-! ### Twitter personal timeline (web_scraper.py lines 1853-1970) -/

/-- A formatted tweet. -/
structure Tweet where
  author : Str
  content : Str
  timestamp : Str
deriving DecidableEq

/-- A retweeted status: `get('user',{}).get('screen_name','Unknown')`
defaults only when the key is absent, so the field is optional here. -/
structure TwitterRetweet where
  screen_name : Option Str
  full_text : Str
deriving DecidableEq

/-- One timeline tweet, restricted to the fields read; `retweeted` is
`some` exactly when `'retweeted_status' in tweet`. -/
structure TwitterTweet where
  screen_name : Str
  full_text : Str
  text : Str
  created_at : Str
  retweeted : Option TwitterRetweet
deriving DecidableEq

/-- The per-tweet build (lines 1940-1960): `full_text or text or ''`,
t.co links stripped, retweets replaced by the `RT @user: ...` form. -/
def mkTweet (tweet : TwitterTweet) : Tweet :=
  let author := if tweet.screen_name.isEmpty then "Unknown".data else tweet.screen_name
  let text := if tweet.full_text.isEmpty then tweet.text else tweet.full_text
  let clean_text := cleanTweetText text
  let clean_text :=
    match tweet.retweeted with
    | some rt =>
      "RT @".data ++ rt.screen_name.getD "Unknown".data ++ ": ".data ++
        cleanTweetText rt.full_text
    | none => clean_text
  { author := '@' :: author, content := clean_text, timestamp := tweet.created_at }

/-- The outcome of the home-page scrape: a raised exception, or the final
URL together with the regex-extracted `full_text` captures and
`screen_name` captures. -/
inductive TwitterScrapeNet where
  | raised (msg : Str)
  | page (finalUrl : Str) (tweet_texts : List Str) (screen_names : List Str)

/-- `_fetch_twitter_personal_web_scraping` (lines 1853-1886; the source
name carries a leading underscore): a login/logout redirect is a hard
failure; otherwise the first `limit` extracted texts are paired with the
screen names by index. -/
def fetch_twitter_personal_web_scraping (limit : Nat) (net : TwitterScrapeNet) :
    PyResult Tweet :=
  match net with
  | .raised m => .fail m
  | .page finalUrl texts names =>
    if containsSub "login".data finalUrl || containsSub "logout".data finalUrl then
      .fail "Twitter Cookie 已过期，网页端拒绝访问".data
    else
      let tweets := (texts.take limit).mapIdx (fun i text =>
        ({ author := '@' :: names.getD i "Unknown".data,
           content := cleanTweetText text,
           timestamp := "刚刚".data } : Tweet))
      if tweets.isEmpty then .fail "网页正则抓取失败，页面结构可能已变更".data
      else .ok tweets

/-- The outcome of the v1.1 timeline call: a raised exception, or the
status code and (for status 200) whether the body is a list and its
tweets. -/
inductive TwitterNet where
  | raised (msg : Str)
  | response (status : Nat) (isList : Bool) (tweets : List TwitterTweet)

/-- `fetch_twitter_personal_dynamic` (lines 1888-1970): fails fast
without a request when the cookie mapping is empty (a missing `ct0` is
only a logged warning); a non-200 status falls back to the web scrape; a
non-list body is a failure; an empty parse is a failure.  The Boolean
records whether any HTTP request was issued. -/
def fetch_twitter_personal_dynamic (limit : Nat) (cookies : Cookies)
    (net : TwitterNet) (scrape : TwitterScrapeNet) : Bool × PyResult Tweet :=
  if cookies.isEmpty then (false, .fail "未配置 config/twitter_cookies.json".data)
  else
    match net with
    | .raised m => (true, .fail m)
    | .response status isList tweets =>
      if status ≠ 200 then (true, fetch_twitter_personal_web_scraping limit scrape)
      else if !isList then (true, .fail "API 返回数据格式异常".data)
      else
        let l := (tweets.take limit).map mkTweet
        if l.isEmpty then (true, .fail "未解析到推文内容".data)
        else (true, .ok l)

/-! ### Query generation (web_scraper.py lines 1193-1237) and the
context pipeline's query stage (lines 1399-1417) -/

/-- The outcome of the assistant call: the raised exception (timeout,
configuration failure, ...) or the response's content text. -/
inductive LlmOutcome where
  | raised (msg : Str)
  | content (text : Str)

/-- The leading-numbering class of `r'^[\d\.\-\*\)\]】]+\s*'`. -/
def isNumberingChar (c : Char) : Bool :=
  isDigit c || c = '.' || c = '-' || c = '*' || c = ')' || c = ']' || c = '】'

/-- `re.sub(r'^[\d\.\-\*\)\]】]+\s*', '', line)`: a non-empty leading run
of numbering characters and the following whitespace are stripped. -/
def stripNumbering (l : Str) : Str :=
  let r := l.dropWhile isNumberingChar
  if r.length = l.length then l else r.dropWhile isSpace

/-- The characters of `line.strip('.,;:，。；：')`. -/
def isEdgePunct (c : Char) : Bool :=
  c = '.' || c = ',' || c = ';' || c = ':' || c = '，' || c = '。' || c = '；' || c = '：'

/-- Strips the edge-punctuation characters from both ends. -/
def stripEdgePunct (l : Str) : Str :=
  ((l.dropWhile isEdgePunct).reverse.dropWhile isEdgePunct).reverse

/-- The usable keyword lines of the assistant's reply (lines 1215-1223):
per line strip, numbering removal, punctuation strip; kept when non-empty
of length at least 2; at most three are collected. -/
def usableLines (text : Str) : List Str :=
  (((splitOnChar '\n' (pyStrip text)).map
      (fun ln => stripEdgePunct (stripNumbering (pyStrip ln)))).filter
    (fun ln => !ln.isEmpty && 2 ≤ ln.length)).take 3

/-- `generate_diverse_queries` (lines 1193-1237): on an assistant
exception the cleaned title is returned three times; on a reply with
fewer than three usable lines the cleaned title pads the list while it is
non-empty. -/
def generate_diverse_queries (window_title : Str) (llm : LlmOutcome) : List Str :=
  match llm with
  | .raised _ =>
    let clean_title := clean_window_title window_title
    [clean_title, clean_title, clean_title]
  | .content text =>
    let queries := usableLines text
    let clean_title := clean_window_title window_title
    let queries :=
      if queries.length < 3 && !clean_title.isEmpty then
        queries ++ List.replicate (3 - queries.length) clean_title
      else queries
    queries.take 3

/-- The outcome of the query stage of `fetch_window_context_content`:
the structured failure `{'success': False, 'error':
'无法提取有效搜索关键词', ...}` or the valid queries handed to the
concurrent search. -/
inductive QueryStage where
  | failed
  | proceed (validQueries : List Str)
deriving DecidableEq

/-- Lines 1406-1417 of `fetch_window_context_content`: the raw window
title is cleaned and passed to `generate_diverse_queries`; the stage
fails when every candidate is empty or shorter than 2 characters. -/
def contextQueryStage (rawTitle : Str) (llm : LlmOutcome) : QueryStage :=
  let search_queries := generate_diverse_queries (clean_window_title rawTitle) llm
  if search_queries.isEmpty ||
      search_queries.all (fun q => q.isEmpty || q.length < 2) then .failed
  else
    let valid := search_queries.filter (fun q => !q.isEmpty && 2 ≤ q.length)
    if valid.isEmpty then .failed else .proceed valid

/-! ### Search-result merging and deduplication (web_scraper.py
lines 1420-1435) -/

/-- One search result entry (`{title, abstract, url}`). -/
structure SearchItem where
  title : Str
  abstract : Str
  url : Str
deriving DecidableEq

/-- `result.get('url') or result.get('title')`: the dedup key, falling
back to the title when the URL is falsy. -/
def dedupKey (r : SearchItem) : Str :=
  if r.url.isEmpty then r.title else r.url

/-- Lines 1423-1426: a gathered branch contributes its result list
exactly when it is a dict with a truthy `success` flag (an empty result
list contributes nothing either way). -/
def mergeSearchResults (outcomes : List (GatherOutcome SearchItem)) : List SearchItem :=
  (outcomes.map (fun o =>
    match o with
    | .result (.ok rs) => rs
    | _ => [])).flatten

/-- The dedup loop of lines 1428-1433: `seen_keys` accumulates keys; an
item is kept when its key is truthy and unseen. -/
def dedupAux (seen : List Str) : List SearchItem → List SearchItem
  | [] => []
  | r :: rs =>
    let key := dedupKey r
    if !key.isEmpty && !seen.contains key then r :: dedupAux (key :: seen) rs
    else dedupAux seen rs

def dedupResults (l : List SearchItem) : List SearchItem := dedupAux [] l

/-- Lines 1428-1435: merge, deduplicate, cap at `limit * 2`. -/
def contextDedup (limit : Nat) (outcomes : List (GatherOutcome SearchItem)) :
    List SearchItem :=
  (dedupResults (mergeSearchResults outcomes)).take (limit * 2)

/-! ## Claim theorems -/

/-- C1: the claim asserts that in BOTH aggregations the envelope's
success flag is the disjunction of the two branches' flags and in
particular is false when both branches fail.  This is refuted for the
personal aggregation: with both constituent results failing,
`fetch_personal_dynamics` still returns an envelope whose success flag is
true. -/
theorem C1_counterexample :
    (fetch_personal_dynamics (α := BiliDynamic) (β := WeiboStatus) "china".data
        (.result (.fail "未提供Bilibili认证信息".data))
        (.result (.fail "缺少核心登录凭证 SUB".data))).first.success = false ∧
    (fetch_personal_dynamics (α := BiliDynamic) (β := WeiboStatus) "china".data
        (.result (.fail "未提供Bilibili认证信息".data))
        (.result (.fail "缺少核心登录凭证 SUB".data))).second.success = false ∧
    (fetch_personal_dynamics (α := BiliDynamic) (β := WeiboStatus) "china".data
        (.result (.fail "未提供Bilibili认证信息".data))
        (.result (.fail "缺少核心登录凭证 SUB".data))).success = true := by
  refine ⟨rfl, rfl, rfl⟩

/-- C1 (amended): the trending/public aggregation's success flag is the
logical OR of the two settled branches' flags, while the
personal-dynamics aggregation returns success `true` unconditionally,
regardless of the two branches' flags. -/
theorem C1_success_flags {α β : Type} (region : Str)
    (o1 : GatherOutcome α) (o2 : GatherOutcome β) :
    (fetch_public_content region o1 o2).success =
      ((settle o1).success || (settle o2).success) ∧
    (fetch_personal_dynamics region o1 o2).success = true := by
  constructor
  · cases h1 : (settle o1).success <;> cases h2 : (settle o2).success <;>
      simp [fetch_public_content, h1, h2]
  · rfl

/-- C2: in a two-branch fan-out a raised exception is converted into that
branch's `{success: false, error: str(e)}` result, the sibling's result
is unaffected, the envelope's success is true when the sibling succeeded,
and when both branches fail an envelope with both per-branch errors is
still returned. -/
theorem C2_exception_isolation {α β : Type} (region m m2 : Str)
    (r1 : PyResult α) (r2 : PyResult β)
    (hm : m ≠ []) (hm2 : m2 ≠ []) (h1 : r1.success = true) (h2 : r2.success = true) :
    let e1 : GatherOutcome α := .exn m
    let e2 : GatherOutcome β := .exn m2
    let s1 : GatherOutcome α := .result r1
    let s2 : GatherOutcome β := .result r2
    ((fetch_public_content region e1 s2).success = true ∧
     (fetch_public_content region e1 s2).first = .fail m ∧
     (fetch_public_content region e1 s2).first.errorMsg ≠ [] ∧
     (fetch_public_content region e1 s2).second = r2) ∧
    ((fetch_public_content region s1 (GatherOutcome.exn (α := β) m)).success = true ∧
     (fetch_public_content region s1 (GatherOutcome.exn (α := β) m)).second = .fail m ∧
     (fetch_public_content region s1 (GatherOutcome.exn (α := β) m)).first = r1) ∧
    ((fetch_personal_dynamics region e1 s2).success = true ∧
     (fetch_personal_dynamics region e1 s2).first = .fail m ∧
     (fetch_personal_dynamics region e1 s2).second = r2) ∧
    ((fetch_public_content region e1 e2).first = .fail m ∧
     (fetch_public_content region e1 e2).second = .fail m2 ∧
     (fetch_public_content region e1 e2).first.errorMsg ≠ [] ∧
     (fetch_public_content region e1 e2).second.errorMsg ≠ [] ∧
     (fetch_personal_dynamics region e1 e2).first = .fail m ∧
     (fetch_personal_dynamics region e1 e2).second = .fail m2) := by
  intro e1 e2 s1 s2
  cases r1 with
  | fail e => simp [PyResult.success] at h1
  | ok l1 =>
    cases r2 with
    | fail e => simp [PyResult.success] at h2
    | ok l2 =>
      refine ⟨⟨?_, rfl, ?_, rfl⟩, ⟨?_, rfl, rfl⟩, ⟨rfl, rfl, rfl⟩,
        rfl, rfl, ?_, ?_, rfl, rfl⟩ <;>
        simp [e1, e2, s1, s2, fetch_public_content, settle, PyResult.success,
          PyResult.errorMsg, hm, hm2]

/-- C2 witness at concrete inputs. -/
theorem C2_exception_isolation_witness :
    (fetch_public_content "china".data
      (GatherOutcome.exn (α := BiliDynamic) "boom".data)
      (.result (PyResult.ok ([] : List WeiboStatus)))).success = true :=
  (C2_exception_isolation "china".data "boom".data "crash".data
    (PyResult.ok ([] : List BiliDynamic)) (PyResult.ok ([] : List WeiboStatus))
    (by decide) (by decide) rfl rfl).1.1

/-- C3: the Weibo trending fetcher transparently returns the fallback's
result whenever the primary desktop path raises, lands on a
passport/login URL, parses no rows out of the page, or collects an empty
list; the primary failure is not exposed as an error. -/
theorem C3_weibo_primary_fallback (limit : Nat) (fb : WeiboFallbackNet)
    (m finalUrl : Str) (tds : List TdItem)
    (hdenial : containsSub "passport".data finalUrl = true ∨ tds = [] ∨
      weiboTrendLoop limit tds 0 0 = []) :
    fetch_weibo_trending limit (.raised m) fb =
      fetch_weibo_trending_fallback limit fb ∧
    fetch_weibo_trending limit (.response finalUrl tds) fb =
      fetch_weibo_trending_fallback limit fb := by
  refine ⟨rfl, ?_⟩
  simp only [fetch_weibo_trending]
  rcases hdenial with h | h | h
  · simp [h]
  · simp [h]
  · by_cases hp : containsSub "passport".data finalUrl
    · simp [hp]
    · by_cases ht : tds = []
      · simp [ht]
      · simp [hp, List.isEmpty_iff, ht, h]

/-- C3 witness: a login redirect of the primary endpoint at concrete
inputs. -/
theorem C3_weibo_primary_fallback_witness :
    fetch_weibo_trending 5
        (.response "https://passport.weibo.com/visitor/visitor".data
          [⟨some ⟨"话题".data, "/weibo?q=x".data⟩, some "热 123456".data⟩])
        (.json (some 1) [⟨"词条".data, 99, "新".data, 1, false⟩]) =
      fetch_weibo_trending_fallback 5
        (.json (some 1) [⟨"词条".data, 99, "新".data, 1, false⟩]) :=
  (C3_weibo_primary_fallback 5 _ "e".data _ _ (Or.inl (by decide))).2

/-- C4: every personal-content fetcher returns a failure with a
non-empty descriptive error and issues no network request when the
credential lookup yields an empty mapping, and likewise for Weibo when
the mapping lacks the core SUB token. -/
theorem C4_credential_gates (limit : Nat) (n1 : BiliDynNet) (n2 : WeiboPersonalNet)
    (n3 : RedditNet) (n4 : TwitterNet) (n5 : TwitterScrapeNet) (cs : Cookies)
    (hsub : weiboSubToken cs = none) :
    ((fetch_bilibili_personal_dynamic limit [] n1).1 = false ∧
     (fetch_bilibili_personal_dynamic limit [] n1).2.success = false ∧
     (fetch_bilibili_personal_dynamic limit [] n1).2.errorMsg ≠ []) ∧
    ((fetch_weibo_personal_dynamic limit [] n2).1 = false ∧
     (fetch_weibo_personal_dynamic limit [] n2).2.success = false ∧
     (fetch_weibo_personal_dynamic limit [] n2).2.errorMsg ≠ []) ∧
    ((fetch_weibo_personal_dynamic limit cs n2).1 = false ∧
     (fetch_weibo_personal_dynamic limit cs n2).2.success = false ∧
     (fetch_weibo_personal_dynamic limit cs n2).2.errorMsg ≠ []) ∧
    ((fetch_reddit_personal_dynamic limit [] n3).1 = false ∧
     (fetch_reddit_personal_dynamic limit [] n3).2.success = false ∧
     (fetch_reddit_personal_dynamic limit [] n3).2.errorMsg ≠ []) ∧
    ((fetch_twitter_personal_dynamic limit [] n4 n5).1 = false ∧
     (fetch_twitter_personal_dynamic limit [] n4 n5).2.success = false ∧
     (fetch_twitter_personal_dynamic limit [] n4 n5).2.errorMsg ≠ []) := by
  refine ⟨⟨rfl, rfl, show "未提供Bilibili认证信息".data ≠ [] by decide⟩,
    ⟨rfl, rfl, show "未找到 config/weibo_cookies.json".data ≠ [] by decide⟩, ?_,
    ⟨rfl, rfl, show "未配置 config/reddit_cookies.json".data ≠ [] by decide⟩,
    ⟨rfl, rfl, show "未配置 config/twitter_cookies.json".data ≠ [] by decide⟩⟩
  by_cases hcs : cs = []
  · subst hcs
    exact ⟨rfl, rfl, show "未找到 config/weibo_cookies.json".data ≠ [] by decide⟩
  · have hne : cs.isEmpty = false := by simpa [List.isEmpty_iff] using hcs
    have hred : fetch_weibo_personal_dynamic limit cs n2 =
        (false, .fail "缺少核心登录凭证 SUB".data) := by
      simp only [fetch_weibo_personal_dynamic, hne, Bool.false_eq_true, if_false, hsub]
    rw [hred]
    exact ⟨rfl, rfl, by decide⟩

/-- C4 witness: a cookie mapping that carries a key but lacks SUB. -/
theorem C4_credential_gates_witness :
    (fetch_weibo_personal_dynamic 5 [("XSRF-TOKEN".data, "v".data)]
      (.response 200 (some 1) [])).1 = false :=
  (C4_credential_gates 5 (.raised "e".data) (.response 200 (some 1) [])
    (.raised "e".data) (.raised "e".data) (.raised "e".data)
    [("XSRF-TOKEN".data, "v".data)] (by decide)).2.2.1.1

/-! ### Truncation lemmas -/

theorem collectLoop_length_le {α β : Type} (mk : α → Option β) (limit : Nat) :
    ∀ (l : List α) (n : Nat), n < limit → (collectLoop mk limit l n).length ≤ limit - n := by
  intro l
  induction l with
  | nil => intro n _; simp [collectLoop]
  | cons a as ih =>
    intro n h
    cases hma : mk a with
    | none => simpa [collectLoop, hma] using ih n h
    | some b =>
      by_cases hb : limit ≤ n + 1
      · simp only [collectLoop, hma, hb, if_true, List.length_cons, List.length_nil]
        omega
      · have := ih (n + 1) (by omega)
        simp only [collectLoop, hma, hb, if_false, List.length_cons]
        omega

theorem weiboTrendLoop_length_le (limit : Nat) :
    ∀ (l : List TdItem) (i cnt : Nat),
      (weiboTrendLoop limit l i cnt).length ≤ limit - cnt := by
  intro l
  induction l with
  | nil => intro i cnt; simp [weiboTrendLoop]
  | cons td tds ih =>
    intro i cnt
    by_cases hc : limit ≤ cnt
    · simp [weiboTrendLoop, hc]
    · cases hmt : mkWeiboTrend td i with
      | some tr =>
        have := ih (i + 1) (cnt + 1)
        simp only [weiboTrendLoop, hc, if_false, hmt, List.length_cons]
        omega
      | none => simpa [weiboTrendLoop, hc, hmt] using ih (i + 1) cnt

theorem length_filter_take_map_le {α β : Type} (f : α → β) (p : α → Bool)
    (limit : Nat) (l : List α) :
    (((l.take limit).filter p).map f).length ≤ limit := by
  rw [List.length_map]
  exact le_trans (List.length_filter_le _ _) (List.length_take_le _ _)

theorem weibo_fallback_payload_le (N : Nat) (wf : WeiboFallbackNet) :
    (fetch_weibo_trending_fallback N wf).payload.length ≤ N := by
  cases wf with
  | raised m => simp [fetch_weibo_trending_fallback, PyResult.payload]
  | notDict => simp [fetch_weibo_trending_fallback, PyResult.payload]
  | json okFlag rt =>
    by_cases h : okFlag = some 1
    · simpa [fetch_weibo_trending_fallback, h, PyResult.payload] using
        length_filter_take_map_le
          (fun it : RealtimeItem =>
            ({ word := it.word, raw_hot := it.raw_hot, note := it.note,
               rank := it.rank,
               url := if it.word.isEmpty then [] else weiboSearchUrl it.word } :
              WeiboTrendItem))
          (fun it => !it.is_ad) N rt
    · simp [fetch_weibo_trending_fallback, h, PyResult.payload]

/-- C5: the claim asserts that for every limit `N` (including `N = 0`)
every fetcher's successful payload has length at most `N`.  It is refuted
at `N = 0`: the Bilibili trending fetcher checks its bound only after an
append, so one item is returned. -/
theorem C5_counterexample :
    (fetch_bilibili_trending 0
      (.items [{ bvid := "BV1xx411c7mD".data, title := "标题".data,
                 desc := "简介".data, owner_name := "作者".data, view := 100,
                 like := 10, id := 1, goto := "av".data,
                 rcmd_reason := .dict "推荐".data }])).success = true ∧
    ¬ ((fetch_bilibili_trending 0
      (.items [{ bvid := "BV1xx411c7mD".data, title := "标题".data,
                 desc := "简介".data, owner_name := "作者".data, view := 100,
                 like := 10, id := 1, goto := "av".data,
                 rcmd_reason := .dict "推荐".data }])).payload.length ≤ 0) := by
  exact ⟨rfl, by decide⟩

/-- C5 (amended): for every limit `N ≥ 1`, every fetcher's returned item
list has length at most `N`, whatever the upstream payload. -/
theorem C5_limit_bound (N : Nat) (hN : 1 ≤ N)
    (b : BiliTrendNet) (wp : WeiboPrimaryNet) (wf : WeiboFallbackNet)
    (rn rn2 : RedditNet) (tt : TwitterTrendNet) (bp : BiliDynNet)
    (wn : WeiboPersonalNet) (tn : TwitterNet) (ts : TwitterScrapeNet)
    (c1 c2 c3 c4 : Cookies) :
    (fetch_bilibili_trending N b).payload.length ≤ N ∧
    (fetch_weibo_trending N wp wf).payload.length ≤ N ∧
    (fetch_weibo_trending_fallback N wf).payload.length ≤ N ∧
    (fetch_reddit_popular N rn).payload.length ≤ N ∧
    (fetch_twitter_trending N tt).payload.length ≤ N ∧
    (fetch_bilibili_personal_dynamic N c1 bp).2.payload.length ≤ N ∧
    (fetch_weibo_personal_dynamic N c2 wn).2.payload.length ≤ N ∧
    (fetch_reddit_personal_dynamic N c3 rn2).2.payload.length ≤ N ∧
    (fetch_twitter_personal_dynamic N c4 tn ts).2.payload.length ≤ N ∧
    (fetch_twitter_personal_web_scraping N ts).payload.length ≤ N := by
  have hscrape : (fetch_twitter_personal_web_scraping N ts).payload.length ≤ N := by
    cases ts with
    | raised m => simp [fetch_twitter_personal_web_scraping, PyResult.payload]
    | page u texts names =>
      simp only [fetch_twitter_personal_web_scraping]
      split
      · simp [PyResult.payload]
      · split
        · simp [PyResult.payload]
        · simp only [PyResult.payload, List.length_mapIdx]
          exact List.length_take_le _ _
  refine ⟨?_, ?_, weibo_fallback_payload_le N wf, ?_, ?_, ?_, ?_, ?_, ?_, hscrape⟩
  · cases b with
    | raised m => simp [fetch_bilibili_trending, PyResult.payload]
    | items l =>
      simpa [fetch_bilibili_trending, PyResult.payload] using
        collectLoop_length_le mkBiliVideo N l 0 (by omega)
  · cases wp with
    | raised m => exact weibo_fallback_payload_le N wf
    | response url tds =>
      simp only [fetch_weibo_trending]
      split
      · exact weibo_fallback_payload_le N wf
      · split
        · exact weibo_fallback_payload_le N wf
        · split
          · exact weibo_fallback_payload_le N wf
          · simpa [PyResult.payload] using weiboTrendLoop_length_le N tds 0 0
  · cases rn with
    | raised m => simp [fetch_reddit_popular, PyResult.payload]
    | json ch =>
      simp only [fetch_reddit_popular]
      split
      · simp [PyResult.payload]
      · simpa [PyResult.payload] using length_filter_take_map_le redditPostOf _ N ch
  · cases tt with
    | raised m => simp [fetch_twitter_trending, PyResult.payload]
    | page texts =>
      simp only [fetch_twitter_trending]
      split
      · simp [PyResult.payload]
      · simp only [PyResult.payload]
        exact le_trans (List.length_filterMap_le _ _) (List.length_take_le _ _)
  · by_cases hc : c1.isEmpty
    · simp [fetch_bilibili_personal_dynamic, hc, PyResult.payload]
    · cases bp with
      | raised m => simp [fetch_bilibili_personal_dynamic, hc, PyResult.payload]
      | json isDict code items =>
        simp only [fetch_bilibili_personal_dynamic, hc, Bool.false_eq_true, if_false]
        split
        · simp [PyResult.payload]
        · simpa [PyResult.payload] using
            collectLoop_length_le mkBiliDynamic N items 0 (by omega)
  · by_cases hc : c2.isEmpty
    · simp [fetch_weibo_personal_dynamic, hc, PyResult.payload]
    · simp only [fetch_weibo_personal_dynamic, hc, Bool.false_eq_true, if_false]
      cases weiboSubToken c2 with
      | none => simp [PyResult.payload]
      | some s =>
        cases wn with
        | raised m => simp [PyResult.payload]
        | response status okFlag cards =>
          simp only
          split
          · simp [PyResult.payload]
          · split
            · simp [PyResult.payload]
            · split
              · simp [PyResult.payload]
              · simpa [PyResult.payload] using
                  collectLoop_length_le mkWeiboStatus N cards 0 (by omega)
  · by_cases hc : c3.isEmpty
    · simp [fetch_reddit_personal_dynamic, hc, PyResult.payload]
    · cases rn2 with
      | raised m => simp [fetch_reddit_personal_dynamic, hc, PyResult.payload]
      | json ch =>
        simpa [fetch_reddit_personal_dynamic, hc, PyResult.payload] using
          length_filter_take_map_le redditPostOf _ N ch
  · by_cases hc : c4.isEmpty
    · simp [fetch_twitter_personal_dynamic, hc, PyResult.payload]
    · cases tn with
      | raised m => simp [fetch_twitter_personal_dynamic, hc, PyResult.payload]
      | response status isList tweets =>
        simp only [fetch_twitter_personal_dynamic, hc, Bool.false_eq_true, if_false]
        split
        · exact hscrape
        · split
          · simp [PyResult.payload]
          · split
            · simp [PyResult.payload]
            · simp only [PyResult.payload, List.length_map]
              exact List.length_take_le _ _

/-- C5 witness at `N = 1` and concrete inputs. -/
theorem C5_limit_bound_witness :
    (fetch_bilibili_trending 1
      (.items [{ bvid := "BV1xx411c7mD".data, title := "标题".data,
                 desc := "简介".data, owner_name := "作者".data, view := 100,
                 like := 10, id := 1, goto := "av".data,
                 rcmd_reason := .dict "推荐".data }])).payload.length ≤ 1 :=
  (C5_limit_bound 1 (by decide)
    (.items [{ bvid := "BV1xx411c7mD".data, title := "标题".data,
               desc := "简介".data, owner_name := "作者".data, view := 100,
               like := 10, id := 1, goto := "av".data,
               rcmd_reason := .dict "推荐".data }])
    (.raised "e".data) (.notDict) (.raised "e".data) (.raised "e".data)
    (.raised "e".data) (.raised "e".data) (.raised "e".data) (.raised "e".data)
    (.raised "e".data) [] [] [] []).1

/-! ### Deduplication lemmas -/

theorem dedup_skip_reason {r : SearchItem} {seen : List Str}
    (hkeep : ¬ (!(dedupKey r).isEmpty && !seen.contains (dedupKey r)) = true) :
    dedupKey r = [] ∨ dedupKey r ∈ seen := by
  by_cases hemp : (dedupKey r).isEmpty
  · exact Or.inl (by simpa [List.isEmpty_iff] using hemp)
  · by_cases hm : seen.contains (dedupKey r)
    · exact Or.inr (by simpa using hm)
    · exact absurd (by
        rw [Bool.and_eq_true]
        exact ⟨by simpa using hemp, by simpa using hm⟩) hkeep

theorem dedupAux_sublist : ∀ (l : List SearchItem) (seen : List Str),
    List.Sublist (dedupAux seen l) l := by
  intro l
  induction l with
  | nil => intro seen; simp [dedupAux]
  | cons r rs ih =>
    intro seen
    simp only [dedupAux]
    by_cases h : (!(dedupKey r).isEmpty && !seen.contains (dedupKey r)) = true
    · rw [if_pos h]
      exact List.Sublist.cons₂ r (ih (dedupKey r :: seen))
    · rw [if_neg h]
      exact List.Sublist.cons r (ih seen)

theorem countP_dedupAux (k : Str) (hk : k ≠ []) :
    ∀ (l : List SearchItem) (seen : List Str),
      (dedupAux seen l).countP (fun r => decide (dedupKey r = k)) =
        if k ∉ seen ∧ ∃ r ∈ l, dedupKey r = k then 1 else 0 := by
  intro l
  induction l with
  | nil => intro seen; simp [dedupAux]
  | cons r rs ih =>
    intro seen
    simp only [dedupAux]
    by_cases hkeep : (!(dedupKey r).isEmpty && !seen.contains (dedupKey r)) = true
    · rw [if_pos hkeep]
      have hnotseen : dedupKey r ∉ seen := by
        have := ((Bool.and_eq_true _ _).mp hkeep).2
        simpa using this
      by_cases hkey : dedupKey r = k
      · rw [List.countP_cons_of_pos _ _ (by simp [hkey]), ih (dedupKey r :: seen)]
        rw [if_neg (by rintro ⟨hns, -⟩; exact hns (hkey ▸ List.mem_cons_self _ _))]
        rw [if_pos ⟨hkey ▸ hnotseen, r, List.mem_cons_self _ _, hkey⟩]
      · rw [List.countP_cons_of_neg _ _ (by simp [hkey]), ih (dedupKey r :: seen)]
        congr 1
        simp only [eq_iff_iff]
        constructor
        · rintro ⟨hns, x, hx, hxk⟩
          exact ⟨fun h => hns (List.mem_cons_of_mem _ h), x,
            List.mem_cons_of_mem _ hx, hxk⟩
        · rintro ⟨hns, x, hx, hxk⟩
          refine ⟨?_, x, ?_, hxk⟩
          · intro h
            rcases List.mem_cons.mp h with h | h
            · exact hkey h.symm
            · exact hns h
          · rcases List.mem_cons.mp hx with rfl | hx'
            · exact absurd hxk hkey
            · exact hx'
    · rw [if_neg hkeep, ih seen]
      have hskip := dedup_skip_reason hkeep
      congr 1
      simp only [eq_iff_iff]
      constructor
      · rintro ⟨hns, x, hx, hxk⟩
        exact ⟨hns, x, List.mem_cons_of_mem _ hx, hxk⟩
      · rintro ⟨hns, x, hx, hxk⟩
        refine ⟨hns, ?_⟩
        rcases List.mem_cons.mp hx with rfl | hx'
        · rcases hskip with h | h
          · exact absurd (hxk.symm.trans h) hk
          · exact absurd (hxk ▸ h) hns
        · exact ⟨x, hx', hxk⟩

theorem find?_dedupAux (k : Str) (hk : k ≠ []) :
    ∀ (l : List SearchItem) (seen : List Str), k ∉ seen →
      (dedupAux seen l).find? (fun r => decide (dedupKey r = k)) =
        l.find? (fun r => decide (dedupKey r = k)) := by
  intro l
  induction l with
  | nil => intro seen _; simp [dedupAux]
  | cons r rs ih =>
    intro seen hseen
    simp only [dedupAux]
    by_cases hkeep : (!(dedupKey r).isEmpty && !seen.contains (dedupKey r)) = true
    · rw [if_pos hkeep]
      by_cases hkey : dedupKey r = k
      · rw [List.find?_cons_of_pos _ (by simp [hkey]),
          List.find?_cons_of_pos _ (by simp [hkey])]
      · rw [List.find?_cons_of_neg _ (by simp [hkey]),
          List.find?_cons_of_neg _ (by simp [hkey])]
        refine ih (dedupKey r :: seen) ?_
        intro h
        rcases List.mem_cons.mp h with h | h
        · exact hkey h.symm
        · exact hseen h
    · rw [if_neg hkeep]
      have hskip := dedup_skip_reason hkeep
      have hkey : ¬ dedupKey r = k := by
        rintro rfl
        rcases hskip with h | h
        · exact hk h
        · exact hseen h
      rw [List.find?_cons_of_neg _ (by simp [hkey])]
      exact ih seen hseen

/-- C7: in the context pipeline's dedup step the output is an
order-preserving selection of the merged results; each non-empty dedup
key occurs exactly once when it occurs in the merge at all; the retained
item for a key is its first occurrence in branch-completion order; and
the capped list has at most `2 * limit` entries. -/
theorem C7_dedup (limit : Nat) (outcomes : List (GatherOutcome SearchItem))
    (k : Str) (hk : k ≠ []) :
    List.Sublist (dedupResults (mergeSearchResults outcomes))
      (mergeSearchResults outcomes) ∧
    ((dedupResults (mergeSearchResults outcomes)).countP
        (fun r => decide (dedupKey r = k)) =
      if ∃ r ∈ mergeSearchResults outcomes, dedupKey r = k then 1 else 0) ∧
    ((dedupResults (mergeSearchResults outcomes)).find?
        (fun r => decide (dedupKey r = k)) =
      (mergeSearchResults outcomes).find? (fun r => decide (dedupKey r = k))) ∧
    (contextDedup limit outcomes).length ≤ 2 * limit := by
  refine ⟨dedupAux_sublist _ [], ?_, find?_dedupAux k hk _ [] (by simp), ?_⟩
  · rw [dedupResults, countP_dedupAux k hk]
    simp
  · calc (contextDedup limit outcomes).length ≤ limit * 2 := List.length_take_le _ _
      _ = 2 * limit := Nat.mul_comm _ _

/-- C7 witness: two branches with an overlapping URL. -/
theorem C7_dedup_witness :
    (dedupResults (mergeSearchResults
        [.result (.ok [⟨"t1".data, "a1".data, "u1".data⟩,
                       ⟨"t2".data, "a2".data, "u2".data⟩]),
         .result (.ok [⟨"t1x".data, "a3".data, "u1".data⟩,
                       ⟨"t3".data, "a4".data, "u3".data⟩])])).countP
      (fun r => decide (dedupKey r = "u1".data)) =
      if ∃ r ∈ mergeSearchResults
          [.result (.ok [⟨"t1".data, "a1".data, "u1".data⟩,
                         ⟨"t2".data, "a2".data, "u2".data⟩]),
           .result (.ok [⟨"t1x".data, "a3".data, "u1".data⟩,
                         ⟨"t3".data, "a4".data, "u3".data⟩])], dedupKey r = "u1".data
      then 1 else 0 :=
  (C7_dedup 2 _ "u1".data (by decide)).2.1

/-! ### Region-selector lemmas -/

theorem tryLocaleCheck_ok (f : Except PyExn (Option Str)) :
    ∃ b, tryLocaleCheck f = .ok b := by
  cases f with
  | ok o => cases o <;> exact ⟨_, rfl⟩
  | error e => cases e <;> exact ⟨_, rfl⟩

theorem tryLocaleCheck_false (f : Except PyExn (Option Str))
    (h : ∀ l, f = .ok (some l) → check_locale l = false) :
    tryLocaleCheck f = .ok false := by
  cases f with
  | ok o =>
    cases o with
    | none => rfl
    | some l => simp [tryLocaleCheck, h l rfl]
  | error e => cases e <;> rfl

/-- C8: the region selector never lets an exception escape (its result is
always an `ok` Boolean), and whenever neither locale lookup yields a
string classified as mainland China — including malformed or empty locale
strings and raising lookups — the result is the International
classification (`false`). -/
theorem C8_region_safety (env : LocaleEnv) :
    (∃ b, is_china_region env = Except.ok b) ∧
    ((∀ l, env.getlocale = .ok (some l) → check_locale l = false) →
     (∀ l, env.getdefaultlocale = .ok (some l) → check_locale l = false) →
     is_china_region env = .ok false) := by
  obtain ⟨b1, h1⟩ := tryLocaleCheck_ok env.getlocale
  obtain ⟨b2, h2⟩ := tryLocaleCheck_ok env.getdefaultlocale
  constructor
  · unfold is_china_region
    rw [h1]
    cases b1 with
    | true => exact ⟨true, rfl⟩
    | false =>
      rw [h2]
      cases b2 with
      | true => exact ⟨true, rfl⟩
      | false => exact ⟨false, rfl⟩
  · intro ha hb
    unfold is_china_region
    rw [tryLocaleCheck_false env.getlocale ha,
      tryLocaleCheck_false env.getdefaultlocale hb]

/-- C8 witness: a raising primary lookup and an absent secondary lookup. -/
theorem C8_region_safety_witness :
    is_china_region ⟨.error (.valueError "unparsable locale".data), .ok none⟩ =
      .ok false :=
  (C8_region_safety _).2 (fun _ h => nomatch h) (fun _ h => nomatch h)

set_option maxRecDepth 20000 in
/-- C9: the claim asserts idempotence of `clean_window_title` on every
already-clean string of length at least 3.  It is refuted by a clean
101-character string: the final `cleaned[:100]` truncation drops its last
character. -/
theorem C9_counterexample :
    3 ≤ (List.replicate 101 'a' : Str).length ∧
    cleanPhase (List.replicate 101 'a') = List.replicate 101 'a' ∧
    clean_window_title (List.replicate 101 'a') ≠ List.replicate 101 'a' := by
  refine ⟨by decide, by decide, by decide⟩

/-- C9 (amended): `clean_window_title` returns every already-clean
string of length between 3 and 100 unchanged (the pattern pass and
whitespace normalisation remove nothing from it, the length-3 fallback is
not taken, and the 100-character truncation is inert). -/
theorem C9_idempotent_on_clean (s : Str) (h3 : 3 ≤ s.length)
    (h100 : s.length ≤ 100) (hclean : cleanPhase s = s) :
    clean_window_title s = s := by
  have hnemp : s.isEmpty = false := by
    cases s with
    | nil => simp at h3
    | cons c cs => rfl
  simp only [clean_window_title, hnemp, Bool.false_eq_true, if_false, hclean]
  rw [if_neg (by omega)]
  exact List.take_of_length_le h100

/-- C9 witness: a clean short title. -/
theorem C9_idempotent_on_clean_witness :
    clean_window_title "hello world".data = "hello world".data :=
  C9_idempotent_on_clean "hello world".data (by decide) (by decide) (by decide)

/-- C10 (implicit behaviour): both Reddit fetchers exclude every source
item whose `over_18` flag is truthy — each returned post originates from
a non-`over_18` item of the upstream listing. -/
theorem C10_reddit_nsfw (limit : Nat) (children : List RedditPostData)
    (cookies : Cookies) (post : RedditPost) :
    (post ∈ (fetch_reddit_popular limit (.json children)).payload →
      ∃ pd, pd ∈ children ∧ pd.over_18 = false ∧ post = redditPostOf pd) ∧
    (post ∈ (fetch_reddit_personal_dynamic limit cookies (.json children)).2.payload →
      ∃ pd, pd ∈ children ∧ pd.over_18 = false ∧ post = redditPostOf pd) := by
  have key : ∀ p ∈ ((children.take limit).filter (fun pd => !pd.over_18)).map redditPostOf,
      ∃ pd, pd ∈ children ∧ pd.over_18 = false ∧ p = redditPostOf pd := by
    intro p hp
    rw [List.mem_map] at hp
    obtain ⟨pd, hpd, rfl⟩ := hp
    rw [List.mem_filter] at hpd
    exact ⟨pd, List.take_subset _ _ hpd.1, by simpa using hpd.2, rfl⟩
  constructor
  · intro hmem
    refine key post ?_
    revert hmem
    simp only [fetch_reddit_popular]
    split
    · intro hmem
      simp [PyResult.payload] at hmem
    · exact fun hmem => hmem
  · intro hmem
    refine key post ?_
    revert hmem
    by_cases hc : cookies.isEmpty
    · intro hmem
      simp [fetch_reddit_personal_dynamic, hc, PyResult.payload] at hmem
    · simp only [fetch_reddit_personal_dynamic, hc, Bool.false_eq_true, if_false]
      exact fun hmem => hmem

/-- C10 witness: a listing with one SFW and one NSFW item. -/
theorem C10_reddit_nsfw_witness :
    ∃ pd, pd ∈ [({ over_18 := true, title := "nsfw post".data,
                   subreddit := "sub1".data, score := 50,
                   permalink := "/r/sub1/p1".data } : RedditPostData),
                ({ over_18 := false, title := "good post".data,
                   subreddit := "sub2".data, score := 10,
                   permalink := "/r/sub2/p2".data } : RedditPostData)] ∧
      pd.over_18 = false ∧
      redditPostOf { over_18 := false, title := "good post".data,
                     subreddit := "sub2".data, score := 10,
                     permalink := "/r/sub2/p2".data } = redditPostOf pd :=
  (C10_reddit_nsfw 5
    [{ over_18 := true, title := "nsfw post".data, subreddit := "sub1".data,
       score := 50, permalink := "/r/sub1/p1".data },
     { over_18 := false, title := "good post".data, subreddit := "sub2".data,
       score := 10, permalink := "/r/sub2/p2".data }] []
    (redditPostOf { over_18 := false, title := "good post".data,
                    subreddit := "sub2".data, score := 10,
                    permalink := "/r/sub2/p2".data })).1 (by decide)

/-! ### Query-stage lemmas -/

theorem contextQueryStage_proceed (raw : Str) (llm : LlmOutcome)
    (hne : generate_diverse_queries (clean_window_title raw) llm ≠ [])
    (hall : ∀ q ∈ generate_diverse_queries (clean_window_title raw) llm, 2 ≤ q.length) :
    contextQueryStage raw llm =
      .proceed (generate_diverse_queries (clean_window_title raw) llm) := by
  simp only [contextQueryStage]
  have hnot : (generate_diverse_queries (clean_window_title raw) llm).isEmpty = false := by
    simpa [List.isEmpty_iff] using hne
  have hallfalse : ∀ q ∈ generate_diverse_queries (clean_window_title raw) llm,
      (q.isEmpty || decide (q.length < 2)) = false := by
    intro q hq
    have h2 := hall q hq
    have : q.isEmpty = false := by
      cases q with
      | nil => simp at h2
      | cons c cs => rfl
    simp [this]
    omega
  have hgate : (generate_diverse_queries (clean_window_title raw) llm).all
      (fun q => q.isEmpty || decide (q.length < 2)) = false := by
    cases hq : generate_diverse_queries (clean_window_title raw) llm with
    | nil => exact absurd hq hne
    | cons q qs =>
      have := hallfalse q (hq ▸ List.mem_cons_self _ _)
      simp [List.all_cons, this]
  rw [hnot, hgate]
  simp only [Bool.or_self, Bool.false_or, Bool.false_eq_true, if_false]
  have hfilter : (generate_diverse_queries (clean_window_title raw) llm).filter
      (fun q => !q.isEmpty && decide (2 ≤ q.length)) =
      generate_diverse_queries (clean_window_title raw) llm := by
    refine List.filter_eq_self.mpr ?_
    intro q hq
    have h2 := hall q hq
    have hqe : q.isEmpty = false := by
      cases q with
      | nil => simp at h2
      | cons c cs => rfl
    simp [hqe, h2]
  rw [hfilter, hnot]
  simp

theorem usableLines_length_ge (text : Str) (q : Str) (hq : q ∈ usableLines text) :
    2 ≤ q.length := by
  have hmem := List.mem_of_mem_take (l := ((splitOnChar '\n' (pyStrip text)).map
      (fun ln => stripEdgePunct (stripNumbering (pyStrip ln)))).filter
    (fun ln => !ln.isEmpty && 2 ≤ ln.length)) hq
  rw [List.mem_filter] at hmem
  have := hmem.2
  simp only [Bool.and_eq_true, decide_eq_true_eq] at this
  exact this.2

/-- C6: the claim asserts that on any assistant failure the pipeline
still gets 3 non-empty queries from the cleaned title and fails only when
the title cannot be cleaned to at least 3 characters.  It is refuted: the
pipeline hands the already-cleaned title to `generate_diverse_queries`,
whose exception fallback cleans it a second time; for the window title
`"a-5 www.x"` the first cleaning yields the 3-character `"a-5"` but the
second yields `"a"`, so every fallback query is shorter than 2 characters
and the query stage returns its structured failure. -/
theorem C6_counterexample :
    3 ≤ (clean_window_title "a-5 www.x".data).length ∧
    contextQueryStage "a-5 www.x".data (.raised "Request timed out".data) =
      .failed := by
  exact ⟨by decide, by decide⟩

/-- C6 (amended): when the assistant call raises, the fallback queries
are three copies of the twice-cleaned title; the stage fails exactly when
that twice-cleaned title is shorter than 2 characters (which can happen
even when the title itself cleans to 3 or more characters), and proceeds
with the three non-empty candidates otherwise.  When the assistant
replies but yields fewer than three usable lines, the stage still
proceeds with three candidates of length at least 2 provided the
twice-cleaned title has length at least 2. -/
theorem C6_assistant_fallback (raw m : Str) :
    (contextQueryStage raw (.raised m) = .failed ↔
      (clean_window_title (clean_window_title raw)).length < 2) ∧
    (2 ≤ (clean_window_title (clean_window_title raw)).length →
      contextQueryStage raw (.raised m) =
        .proceed [clean_window_title (clean_window_title raw),
                  clean_window_title (clean_window_title raw),
                  clean_window_title (clean_window_title raw)]) ∧
    (∀ text, 2 ≤ (clean_window_title (clean_window_title raw)).length →
      ∃ qs, contextQueryStage raw (.content text) = .proceed qs ∧
        qs.length = 3 ∧ ∀ q ∈ qs, 2 ≤ q.length) := by
  have hraisedq : generate_diverse_queries (clean_window_title raw) (.raised m) =
      [clean_window_title (clean_window_title raw),
       clean_window_title (clean_window_title raw),
       clean_window_title (clean_window_title raw)] := rfl
  have hproceed : 2 ≤ (clean_window_title (clean_window_title raw)).length →
      contextQueryStage raw (.raised m) =
        .proceed [clean_window_title (clean_window_title raw),
                  clean_window_title (clean_window_title raw),
                  clean_window_title (clean_window_title raw)] := by
    intro h2
    rw [← hraisedq]
    refine contextQueryStage_proceed raw _ (by rw [hraisedq]; simp) ?_
    intro q hq
    rw [hraisedq] at hq
    rcases List.mem_cons.mp hq with rfl | hq
    · exact h2
    · rcases List.mem_cons.mp hq with rfl | hq
      · exact h2
      · rcases List.mem_cons.mp hq with rfl | hq
        · exact h2
        · simp at hq
  have hfailed : (clean_window_title (clean_window_title raw)).length < 2 →
      contextQueryStage raw (.raised m) = .failed := by
    intro hlt
    simp only [contextQueryStage, hraisedq]
    have : ((clean_window_title (clean_window_title raw)).isEmpty ||
        decide ((clean_window_title (clean_window_title raw)).length < 2)) = true := by
      simp [hlt]
    simp [List.all_cons, this]
  refine ⟨⟨?_, hfailed⟩, hproceed, ?_⟩
  · intro hf
    by_contra hge
    rw [hproceed (by omega)] at hf
    exact QueryStage.noConfusion hf
  · intro text h2
    have hct2ne : ¬ (clean_window_title (clean_window_title raw)).isEmpty = true := by
      cases hc : clean_window_title (clean_window_title raw) with
      | nil => rw [hc] at h2; simp at h2
      | cons c cs => simp
    refine ⟨generate_diverse_queries (clean_window_title raw) (.content text), ?_, ?_, ?_⟩
    · refine contextQueryStage_proceed raw _ ?_ ?_
      · have : (generate_diverse_queries (clean_window_title raw)
            (.content text)).length = 3 := ?_
        · intro hnil
          rw [hnil] at this
          simp at this
        · simp only [generate_diverse_queries]
          by_cases hlen : (usableLines text).length < 3
          · rw [if_pos (by simp [hlen, hct2ne])]
            rw [List.take_of_length_le (by simp [List.length_replicate]; omega)]
            simp [List.length_replicate]
            omega
          · rw [if_neg (by simp [hlen])]
            rw [List.length_take]
            omega
      · intro q hq
        simp only [generate_diverse_queries] at hq
        by_cases hlen : (usableLines text).length < 3
        · rw [if_pos (by simp [hlen, hct2ne])] at hq
          have hq' := List.mem_of_mem_take hq
          rcases List.mem_append.mp hq' with hq'' | hq''
          · exact usableLines_length_ge text q hq''
          · rw [List.eq_of_mem_replicate hq'']
            exact h2
        · rw [if_neg (by simp [hlen])] at hq
          exact usableLines_length_ge text q (List.mem_of_mem_take hq)
    · simp only [generate_diverse_queries]
      by_cases hlen : (usableLines text).length < 3
      · rw [if_pos (by simp [hlen, hct2ne])]
        rw [List.take_of_length_le (by simp [List.length_replicate]; omega)]
        simp [List.length_replicate]
        omega
      · rw [if_neg (by simp [hlen])]
        rw [List.length_take]
        omega
    · intro q hq
      simp only [generate_diverse_queries] at hq
      by_cases hlen : (usableLines text).length < 3
      · rw [if_pos (by simp [hlen, hct2ne])] at hq
        have hq' := List.mem_of_mem_take hq
        rcases List.mem_append.mp hq' with hq'' | hq''
        · exact usableLines_length_ge text q hq''
        · rw [List.eq_of_mem_replicate hq'']
          exact h2
      · rw [if_neg (by simp [hlen])] at hq
        exact usableLines_length_ge text q (List.mem_of_mem_take hq)

/-- C6 witness: a title that survives cleaning, with a raising assistant
call. -/
theorem C6_assistant_fallback_witness :
    contextQueryStage "hello world".data (.raised "Request timed out".data) =
      .proceed ["hello world".data, "hello world".data, "hello world".data] := by
  have h := (C6_assistant_fallback "hello world".data "Request timed out".data).2.1
    (by decide)
  simpa using h

end WebScraper

